import Mathlib

/-!
Verification of the kidsfeed meal-management backend domain layer.

This file shallowly embeds the domain entities, value objects and service
logic of the repository (DietaryFlags, NutritionalInfo, Recipe, the
inventory status calculator, the in-memory recipe repository and
CreateRecipeUseCase) and proves or refutes the specified properties.

Conventions of the embedding:
- JavaScript numbers that matter here are exact (integers / decimal
  quantities); they are modelled as rationals.  Fields that may be
  `undefined` are modelled as `Option` values, with `none` standing for
  an absent / `undefined` field.
- JavaScript `NaN`-producing arithmetic is modelled by the small `JSNum`
  type where it is needed (the nutrition-guard expression).
- Dates are modelled by their epoch timestamp as an integer.
- Functions that can `throw` are modelled in `Except String`.
-/

/-- Truthiness of an optional boolean field of a plain JS object:
`undefined` is falsy, a boolean is its own truth value. -/
def jsTruthy : Option Bool → Bool
  | none => false
  | some b => b

/-- JS comparison `a <= b` where either side may be `undefined`:
comparison with `undefined` coerces to `NaN` and yields `false`. -/
def jsLe : Option ℚ → Option ℚ → Bool
  | some a, some b => decide (a ≤ b)
  | _, _ => false

/-- JS test `item.expiryDate && new Date(item.expiryDate) < new Date()`:
true when the expiry date is present and strictly earlier than `now`. -/
def expiryInPast : Option ℤ → ℤ → Bool
  | some t, now => decide (t < now)
  | none, _ => false

/-- Inventory status enum from inventory-constants.js. -/
inductive InventoryStatus where
  | ACTIVE
  | LOW_STOCK
  | OUT_OF_STOCK
  | EXPIRED
deriving DecidableEq, Repr

/-- The view of an inventory item consumed by `_calculateStatus`:
each field may be `undefined` on the caller side. -/
structure StatusInput where
  quantity : Option ℚ
  reorderLevel : Option ℚ
  expiryDate : Option ℤ
deriving DecidableEq, Repr

/-- `InventoryItemService._calculateStatus(item)`: expiry check first,
then `quantity === 0`, then `quantity <= reorderLevel`, else ACTIVE. -/
def calculateStatus (item : StatusInput) (now : ℤ) : InventoryStatus :=
  if expiryInPast item.expiryDate now then .EXPIRED
  else if item.quantity = some 0 then .OUT_OF_STOCK
  else if jsLe item.quantity item.reorderLevel then .LOW_STOCK
  else .ACTIVE

/-- A persisted inventory item as read back from the store: quantity and
reorderLevel are always present on a stored record. -/
structure ExistingItem where
  quantity : ℚ
  reorderLevel : ℚ
  expiryDate : Option ℤ
deriving DecidableEq, Repr

/-- A PATCH payload: every field may be omitted. -/
structure PatchPayload where
  quantity : Option ℚ
  reorderLevel : Option ℚ
  expiryDate : Option ℤ
deriving DecidableEq, Repr

/-- The merged view built by `patchInventoryItem` with `??`:
`partialData.field ?? existingItem.field`. -/
def patchMergedInput (existing : ExistingItem) (p : PatchPayload) : StatusInput :=
  { quantity := some (p.quantity.getD existing.quantity)
    reorderLevel := some (p.reorderLevel.getD existing.reorderLevel)
    expiryDate := p.expiryDate <|> existing.expiryDate }

/-- The status computed by `InventoryItemService.patchInventoryItem`. -/
def patchItemStatus (existing : ExistingItem) (p : PatchPayload) (now : ℤ) :
    InventoryStatus :=
  calculateStatus (patchMergedInput existing p) now

/-- A PUT payload after `validateUpdateInventoryItem`: quantity is
required (a non-negative number), reorderLevel and expiryDate optional. -/
structure UpdatePayload where
  quantity : ℚ
  reorderLevel : Option ℚ
  expiryDate : Option ℤ
deriving DecidableEq, Repr

/-- The status computed by `InventoryItemService.updateInventoryItem`:
built from the update payload alone, with no merge against the stored
record. -/
def updateItemStatus (u : UpdatePayload) (now : ℤ) : InventoryStatus :=
  calculateStatus
    { quantity := some u.quantity
      reorderLevel := u.reorderLevel
      expiryDate := u.expiryDate } now

/-- The six recognized dietary flags, as stored by the DietaryFlags
constructor (each parameter defaults to false). -/
structure DietaryFlags where
  vegetarian : Bool
  vegan : Bool
  halal : Bool
  glutenFree : Bool
  dairyFree : Bool
  nutFree : Bool
deriving DecidableEq, Repr

/-- A plain JS object carrying some of the six flags; absent fields are
`none`.  Used both as the DietaryFlags constructor parameter object and
as the `requirements` argument of `isCompliantWith`. -/
structure DietaryFlagsInput where
  vegetarian : Option Bool
  vegan : Option Bool
  halal : Option Bool
  glutenFree : Option Bool
  dairyFree : Option Bool
  nutFree : Option Bool
deriving DecidableEq, Repr

/-- The all-absent parameter object `\x7b\x7d`. -/
def DietaryFlagsInput.empty : DietaryFlagsInput :=
  ⟨none, none, none, none, none, none⟩

/-- The DietaryFlags constructor: each recognized flag defaults to false
when omitted. -/
def DietaryFlags.make (i : DietaryFlagsInput) : DietaryFlags :=
  { vegetarian := i.vegetarian.getD false
    vegan := i.vegan.getD false
    halal := i.halal.getD false
    glutenFree := i.glutenFree.getD false
    dairyFree := i.dairyFree.getD false
    nutFree := i.nutFree.getD false }

/-- `DietaryFlags.isCompliantWith(requirements)` as written in the
source: it checks the vegetarian, vegan, halal and glutenFree
requirements, in that order, and nothing else. -/
def DietaryFlags.isCompliantWith (d : DietaryFlags) (requirements : DietaryFlagsInput) : Bool :=
  if jsTruthy requirements.vegetarian && !d.vegetarian then false
  else if jsTruthy requirements.vegan && !d.vegan then false
  else if jsTruthy requirements.halal && !d.halal then false
  else if jsTruthy requirements.glutenFree && !d.glutenFree then false
  else true

/-- The compliance predicate as the spec words it, over all six
recognized flags: every flag present and true in the requirements must
be true on the flags value.  Written only to be compared against the
source definition `DietaryFlags.isCompliantWith`. -/
def specCompliantSixFlags (d : DietaryFlags) (r : DietaryFlagsInput) : Bool :=
  (!jsTruthy r.vegetarian || d.vegetarian) &&
  (!jsTruthy r.vegan || d.vegan) &&
  (!jsTruthy r.halal || d.halal) &&
  (!jsTruthy r.glutenFree || d.glutenFree) &&
  (!jsTruthy r.dairyFree || d.dairyFree) &&
  (!jsTruthy r.nutFree || d.nutFree)

/-- The compliance predicate restricted to the four flags the source
actually checks. -/
def specCompliantFourFlags (d : DietaryFlags) (r : DietaryFlagsInput) : Bool :=
  (!jsTruthy r.vegetarian || d.vegetarian) &&
  (!jsTruthy r.vegan || d.vegan) &&
  (!jsTruthy r.halal || d.halal) &&
  (!jsTruthy r.glutenFree || d.glutenFree)

/-- A DietaryFlags value with every flag false. -/
def DietaryFlags.allFalse : DietaryFlags :=
  ⟨false, false, false, false, false, false⟩

/-- Property read on the constructed DietaryFlags object: the
constructor assigns exactly the six recognized field names, so any
other name reads `undefined` (`none`). -/
def DietaryFlags.fieldRead (d : DietaryFlags) (key : String) : Option Bool :=
  if key = "vegetarian" then some d.vegetarian
  else if key = "vegan" then some d.vegan
  else if key = "halal" then some d.halal
  else if key = "glutenFree" then some d.glutenFree
  else if key = "dairyFree" then some d.dairyFree
  else if key = "nutFree" then some d.nutFree
  else none

/-- JS strict equality `v === true` on a possibly-undefined field. -/
def jsStrictEqTrue : Option Bool → Bool
  | some b => b
  | none => false

/-- JS `String.prototype.trim()`: removes leading and trailing
whitespace (modelled structurally on the character list so that it is
kernel-computable). -/
def jsTrim (s : String) : String :=
  ⟨((s.data.dropWhile Char.isWhitespace).reverse.dropWhile Char.isWhitespace).reverse⟩

/-- NutritionalInfo value object: the six stored numeric fields. -/
structure NutritionalInfo where
  calories : ℚ
  protein : ℚ
  carbs : ℚ
  fats : ℚ
  fiber : ℚ
  sugar : ℚ
deriving DecidableEq, Repr

/-- The NutritionalInfo constructor: each parameter defaults to 0 when
omitted; it throws when calories, protein, carbs or fats is negative;
fiber and sugar are not checked. -/
def NutritionalInfo.make (calories protein carbs fats fiber sugar : Option ℚ) :
    Except String NutritionalInfo :=
  if calories.getD 0 < 0 || protein.getD 0 < 0 || carbs.getD 0 < 0 || fats.getD 0 < 0 then
    .error "Nutritional values cannot be negative"
  else
    .ok ⟨calories.getD 0, protein.getD 0, carbs.getD 0, fats.getD 0, fiber.getD 0, sugar.getD 0⟩

/-- An ingredient entry of a recipe. -/
structure Ingredient where
  name : String
  quantity : ℚ
  unit : String
  isEssential : Bool
deriving DecidableEq, Repr

/-- The Recipe entity (Recipe.js constructor fields).  Timestamps are
epoch integers; `new Date()` at a mutation is passed in as `now`. -/
structure Recipe where
  id : Option String
  name : String
  description : String
  ingredients : List Ingredient
  instructions : String
  nutritionalInfo : Option NutritionalInfo
  dietaryFlags : DietaryFlags
  allergens : List String
  servingSize : ℚ
  prepTime : ℚ
  seasonal : List String
  isActive : Bool
  createdAt : ℤ
  updatedAt : ℤ
deriving DecidableEq, Repr

/-- `Recipe.validate()`: throws on the first failing rule in source
order (name, ingredients, instructions, servingSize), else returns
true.  The JS falsiness test `!this.name` on a string is the
empty-string test, kept alongside the trim-length test as in the
source. -/
def Recipe.validate (r : Recipe) : Except String Bool :=
  if r.name = "" || (jsTrim r.name).length = 0 then
    .error "Recipe name is required"
  else if r.ingredients.length = 0 then
    .error "Recipe must have at least one ingredient"
  else if r.instructions = "" || (jsTrim r.instructions).length = 0 then
    .error "Instructions are required"
  else if r.servingSize ≤ 0 then
    .error "Serving size must be greater than 0"
  else
    .ok true

/-- `Recipe.updateNutrition(nutritionalInfo)`: unconditional replace,
bumps updatedAt. -/
def Recipe.updateNutrition (r : Recipe) (nutritionalInfo : Option NutritionalInfo)
    (now : ℤ) : Recipe :=
  { r with nutritionalInfo := nutritionalInfo, updatedAt := now }

/-- `Recipe.markAsInactive()`: sets isActive to false, bumps updatedAt. -/
def Recipe.markAsInactive (r : Recipe) (now : ℤ) : Recipe :=
  { r with isActive := false, updatedAt := now }

/-- `Recipe.isVegetarian()`: reads `this.dietaryFlags.vegetarian === true`. -/
def Recipe.isVegetarian (r : Recipe) : Bool :=
  jsStrictEqTrue (r.dietaryFlags.fieldRead "vegetarian")

/-- `Recipe.isHalal()`: reads `this.dietaryFlags.hala === true` — the
source reads the misspelled field name `hala`. -/
def Recipe.isHalal (r : Recipe) : Bool :=
  jsStrictEqTrue (r.dietaryFlags.fieldRead "hala")

/-- `Recipe.hasAllergens(allergen)`: membership in the allergens list. -/
def Recipe.hasAllergens (r : Recipe) (allergen : String) : Bool :=
  r.allergens.contains allergen

/-- `Recipe.adjustServingSize(newServingSize)`: computes the multiplier
`newServingSize / servingSize`, scales every ingredient quantity by it,
sets servingSize, bumps updatedAt.  The source performs no check on
`newServingSize`. -/
def Recipe.adjustServingSize (r : Recipe) (newServingSize : ℚ) (now : ℤ) : Recipe :=
  let multiplier := newServingSize / r.servingSize
  { r with
    ingredients := r.ingredients.map fun i => { i with quantity := i.quantity * multiplier }
    servingSize := newServingSize
    updatedAt := now }

/-- A record stored by MockRecipeRepository: the spread copy of the
recipe with its assigned id, plus the `isActice` field that only the
(typo-carrying) delete method ever assigns — absent (`none`) on save. -/
structure StoredRecipe where
  recipe : Recipe
  isActice : Option Bool
deriving DecidableEq, Repr

/-- The in-memory MockRecipeRepository state: the recipes array and the
auto-increment id counter. -/
structure MockRepo where
  recipes : List StoredRecipe
  nextId : ℕ
deriving DecidableEq, Repr

/-- A fresh MockRecipeRepository. -/
def MockRepo.empty : MockRepo := ⟨[], 1⟩

/-- `MockRecipeRepository.save(recipe)`: copies the recipe, assigns
`String(this.nextId++)` as id, pushes it, returns the saved record. -/
def MockRepo.save (repo : MockRepo) (recipe : Recipe) : MockRepo × StoredRecipe :=
  let saved : StoredRecipe := ⟨{ recipe with id := some (toString repo.nextId) }, none⟩
  (⟨repo.recipes ++ [saved], repo.nextId + 1⟩, saved)

/-- `MockRecipeRepository.findById(id)`: linear search, null when absent. -/
def MockRepo.findById (repo : MockRepo) (id : String) : Option StoredRecipe :=
  repo.recipes.find? fun r => r.recipe.id = some id

/-- `MockRecipeRepository.delete(id)`: returns null when the id is
absent; otherwise assigns `isActice = false` (the source writes the
misspelled field name) on the stored record and returns it. -/
def MockRepo.delete (repo : MockRepo) (id : String) : MockRepo × Option StoredRecipe :=
  match repo.recipes.findIdx? (fun r => r.recipe.id = some id) with
  | none => (repo, none)
  | some index =>
    let recipes := repo.recipes.map fun r =>
      if r.recipe.id = some id then { r with isActice := some false } else r
    (⟨recipes, repo.nextId⟩, (repo.recipes.get? index).map fun r => { r with isActice := some false })

/-- The dietary-flag filters accepted by `MockRecipeRepository.findAll`. -/
structure MockFindFilters where
  vegetarian : Option Bool
  halal : Option Bool
  vegan : Option Bool
deriving DecidableEq, Repr

/-- Pagination argument of findAll; both fields default when omitted. -/
structure MockPagination where
  page : Option ℕ
  limit : Option ℕ
deriving DecidableEq, Repr

/-- Result shape of `MockRecipeRepository.findAll`. -/
structure MockFindAllResult where
  recipes : List StoredRecipe
  total : ℕ
  page : ℕ
  totalPages : ℕ
deriving DecidableEq, Repr

/-- `MockRecipeRepository.findAll(filters, pagination)`: keeps records
with `isActice !== false`, applies the vegetarian/halal/vegan filters,
then slices `[(page-1)*limit, (page-1)*limit + limit)`.  `totalPages`
is `Math.ceil(total / limit)` (limit is positive in every use here). -/
def MockRepo.findAll (repo : MockRepo) (filters : MockFindFilters)
    (pagination : MockPagination) : MockFindAllResult :=
  let page := pagination.page.getD 1
  let limit := pagination.limit.getD 10
  let filtered := repo.recipes.filter fun r => r.isActice ≠ some false
  let filtered := if jsTruthy filters.vegetarian then
      filtered.filter (fun r => r.recipe.dietaryFlags.vegetarian) else filtered
  let filtered := if jsTruthy filters.halal then
      filtered.filter (fun r => r.recipe.dietaryFlags.halal) else filtered
  let filtered := if jsTruthy filters.vegan then
      filtered.filter (fun r => r.recipe.dietaryFlags.vegan) else filtered
  let total := filtered.length
  let start := (page - 1) * limit
  ⟨(filtered.drop start).take limit, total, page, (total + limit - 1) / limit⟩

/-- JS numbers as needed by the nutrition-guard expression: `NaN`,
infinities, or an exact value. -/
inductive JSNum where
  | nan
  | posInf
  | negInf
  | num (q : ℚ)
deriving DecidableEq, Repr

/-- JS truthiness of a number: `NaN` and `0` are falsy. -/
def JSNum.truthy : JSNum → Bool
  | .nan => false
  | .num q => decide (q ≠ 0)
  | _ => true

/-- JS division on `JSNum` (sign of zero not modelled; only the
NaN-propagation cases are exercised below). -/
def JSNum.div : JSNum → JSNum → JSNum
  | .nan, _ => .nan
  | _, .nan => .nan
  | .num a, .num b =>
    if b = 0 then (if a = 0 then .nan else if 0 < a then .posInf else .negInf)
    else .num (a / b)
  | .posInf, .posInf => .nan
  | .posInf, .negInf => .nan
  | .negInf, .posInf => .nan
  | .negInf, .negInf => .nan
  | .posInf, .num b => if 0 ≤ b then .posInf else .negInf
  | .negInf, .num b => if 0 ≤ b then .negInf else .posInf
  | .num _, .posInf => .num 0
  | .num _, .negInf => .num 0

/-- The optional nutrition-calculation collaborator:
`calculate(ingredients)` may fail. -/
structure NutritionService where
  calculate : List Ingredient → Except String NutritionalInfo

/-- `ToNumber(this)` for the use-case object (a plain object): `NaN`. -/
def useCaseObjectToNumber : JSNum := .nan

/-- `ToNumber(this.nutritionService)`: `0` for `null`, `NaN` for a
service object. -/
def serviceToNumber : Option NutritionService → JSNum
  | none => .num 0
  | some _ => .nan

/-- The first operand of the nutrition guard in
`CreateRecipeUseCase.execute`: the expression `this / this.nutritionService`. -/
def nutritionGuardFirstOperand (service : Option NutritionService) : JSNum :=
  JSNum.div useCaseObjectToNumber (serviceToNumber service)

/-- Truthiness of the nutrition guard `this / this.nutritionService`.
When it is falsy, `&&` short-circuits, so the second operand
`ingredients.ingredients.length > 0` (a reference to an undefined
variable) is never evaluated. -/
def nutritionGuardHolds (service : Option NutritionService) : Bool :=
  (nutritionGuardFirstOperand service).truthy

/-- The raw recipeData object handed to `CreateRecipeUseCase.execute`. -/
structure RecipeData where
  name : String
  description : String
  ingredients : List Ingredient
  instructions : String
  dietaryFlags : Option DietaryFlagsInput
  allergens : Option (List String)
  seasonal : Option (List String)
  servingSize : ℚ
  prepTime : ℚ
deriving Repr

/-- The Recipe entity constructed at the top of
`CreateRecipeUseCase.execute` (constructor defaults filled in). -/
def Recipe.fromCreateData (d : RecipeData) (now : ℤ) : Recipe :=
  { id := none
    name := d.name
    description := d.description
    ingredients := d.ingredients
    instructions := d.instructions
    nutritionalInfo := none
    dietaryFlags := DietaryFlags.make (d.dietaryFlags.getD DietaryFlagsInput.empty)
    allergens := d.allergens.getD []
    servingSize := d.servingSize
    prepTime := d.prepTime
    seasonal := d.seasonal.getD []
    isActive := true
    createdAt := now
    updatedAt := now }

/-- `CreateRecipeUseCase.execute(recipeData)` against the in-memory
repository: construct, validate (propagating the failure), then the
guarded nutrition step (`try`/`catch` swallowing the calculate failure),
then save.  The guard is modelled exactly as written in the source. -/
def CreateRecipeUseCase.execute (repo : MockRepo) (nutritionService : Option NutritionService)
    (recipeData : RecipeData) (now : ℤ) : Except String (MockRepo × StoredRecipe) := do
  let recipe := Recipe.fromCreateData recipeData now
  let _ ← recipe.validate
  let recipe :=
    if nutritionGuardHolds nutritionService then
      match nutritionService with
      | some service =>
        match service.calculate recipe.ingredients with
        | .ok nutritionData => recipe.updateNutrition (some nutritionData) now
        | .error _ => recipe
      | none => recipe
    else recipe
  .ok (repo.save recipe)

/-- A well-formed sample recipe shared by the concrete evaluations. -/
def sampleRecipe : Recipe :=
  { id := none
    name := "Fried Rice"
    description := "A simple fried rice"
    ingredients := [⟨"rice", 100, "g", true⟩]
    instructions := "Cook the rice well"
    nutritionalInfo := none
    dietaryFlags := DietaryFlags.allFalse
    allergens := []
    servingSize := 4
    prepTime := 20
    seasonal := []
    isActive := true
    createdAt := 0
    updatedAt := 0 }

/-- Claim C1 counterexample: a DietaryFlags value with every flag false
is reported compliant with the requirement object that asks for
nutFree, because `isCompliantWith` never looks at the dairyFree or
nutFree requirement; the claimed six-flag characterization is false at
this input. -/
theorem c1_isCompliantWith_ignores_nutFree_requirement :
    DietaryFlags.isCompliantWith .allFalse ⟨none, none, none, none, none, some true⟩ = true ∧
    specCompliantSixFlags .allFalse ⟨none, none, none, none, none, some true⟩ = false := by
  decide

/-- Claim C1 (amended): `isCompliantWith` returns true iff every flag
among vegetarian, vegan, halal and glutenFree that is present and true
in the requirements is also true on the flags value; dairyFree and
nutFree requirements, like absent or false requirement flags, are
ignored. -/
theorem c1_isCompliantWith_checks_four_flags :
    ∀ (d : DietaryFlags) (r : DietaryFlagsInput),
      d.isCompliantWith r = specCompliantFourFlags d r := by
  intro d r
  unfold DietaryFlags.isCompliantWith specCompliantFourFlags
  cases jsTruthy r.vegetarian <;> cases jsTruthy r.vegan <;>
    cases jsTruthy r.halal <;> cases jsTruthy r.glutenFree <;>
    cases d.vegetarian <;> cases d.vegan <;> cases d.halal <;> cases d.glutenFree <;> rfl

/-- Claim C3: `adjustServingSize` performs the claimed positive-case
scaling (servingSize 4, quantity 100, adjust to 8 gives quantity 200
and servingSize 8), but with 0 or a negative argument it does not fail:
it silently scales every quantity to zero or a negative value. -/
theorem c3_adjustServingSize_silently_scales_by_nonpositive :
    (sampleRecipe.adjustServingSize 8 1).servingSize = 8 ∧
    ((sampleRecipe.adjustServingSize 8 1).ingredients.map fun i => i.quantity) = [200] ∧
    (sampleRecipe.adjustServingSize 0 1).servingSize = 0 ∧
    ((sampleRecipe.adjustServingSize 0 1).ingredients.map fun i => i.quantity) = [0] ∧
    ((sampleRecipe.adjustServingSize (-2) 1).ingredients.map fun i => i.quantity) = [-50] := by
  refine ⟨rfl, ?_, rfl, ?_, ?_⟩ <;> norm_num [Recipe.adjustServingSize, sampleRecipe]

/-- Claim C4: the derived inventory status follows the fixed precedence
EXPIRED (set, past expiry date) before OUT_OF_STOCK (quantity 0) before
LOW_STOCK (quantity at most reorderLevel) before ACTIVE, together with
the four concrete examples of the claim. -/
theorem c4_calculateStatus_precedence :
    (∀ (q r : ℚ) (e : Option ℤ) (now : ℤ),
      (calculateStatus ⟨some q, some r, e⟩ now = .EXPIRED ↔ ∃ t, e = some t ∧ t < now) ∧
      (calculateStatus ⟨some q, some r, e⟩ now = .OUT_OF_STOCK ↔
        expiryInPast e now = false ∧ q = 0) ∧
      (calculateStatus ⟨some q, some r, e⟩ now = .LOW_STOCK ↔
        expiryInPast e now = false ∧ q ≠ 0 ∧ q ≤ r) ∧
      (calculateStatus ⟨some q, some r, e⟩ now = .ACTIVE ↔
        expiryInPast e now = false ∧ q ≠ 0 ∧ ¬ q ≤ r)) ∧
    calculateStatus ⟨some 0, some 10, some 0⟩ 100 = .EXPIRED ∧
    calculateStatus ⟨some 5, some 10, none⟩ 0 = .LOW_STOCK ∧
    calculateStatus ⟨some 0, some 10, none⟩ 0 = .OUT_OF_STOCK ∧
    calculateStatus ⟨some 20, some 10, none⟩ 0 = .ACTIVE := by
  refine ⟨?_, by decide, by decide, by decide, by decide⟩
  intro q r e now
  have hexp : expiryInPast e now = true ↔ ∃ t, e = some t ∧ t < now := by
    cases e <;> simp [expiryInPast]
  unfold calculateStatus
  split_ifs with h1 h2 h3 <;>
    simp_all [jsLe, StatusInput.quantity, StatusInput.reorderLevel, StatusInput.expiryDate]

/-- Claim C5: the status recomputed by `patchInventoryItem` is derived
from the merged view (patch value when provided, else the persisted
value); an empty patch reuses all persisted values, and in particular a
patch that omits quantity is not treated as quantity 0. -/
theorem c5_patch_status_uses_merged_view :
    (∀ (existing : ExistingItem) (p : PatchPayload) (now : ℤ),
      patchItemStatus existing p now = calculateStatus
        ⟨some (p.quantity.getD existing.quantity),
          some (p.reorderLevel.getD existing.reorderLevel),
          p.expiryDate <|> existing.expiryDate⟩ now) ∧
    (∀ (existing : ExistingItem) (now : ℤ),
      patchItemStatus existing ⟨none, none, none⟩ now =
        calculateStatus ⟨some existing.quantity, some existing.reorderLevel,
          existing.expiryDate⟩ now) ∧
    patchItemStatus ⟨20, 10, none⟩ ⟨none, none, none⟩ 0 = .ACTIVE ∧
    calculateStatus ⟨some 0, some 10, none⟩ 0 = .OUT_OF_STOCK ∧
    patchItemStatus ⟨20, 10, none⟩ ⟨none, some 25, none⟩ 0 = .LOW_STOCK := by
  refine ⟨fun existing p now => rfl, fun existing now => rfl, by decide, by decide, by decide⟩

/-- A nutrition collaborator whose calculate call succeeds. -/
def demoNutritionService : NutritionService :=
  ⟨fun _ => .ok ⟨100, 10, 20, 5, 1, 1⟩⟩

/-- A valid creation payload with a non-empty ingredients list. -/
def demoRecipeData : RecipeData :=
  { name := "Fried Rice"
    description := "A simple fried rice"
    ingredients := [⟨"rice", 100, "g", true⟩]
    instructions := "Cook the rice well"
    dietaryFlags := none
    allergens := none
    seasonal := none
    servingSize := 4
    prepTime := 20 }

/-- Claim C2: the nutrition step of `CreateRecipeUseCase.execute` never
runs — the guard `this / this.nutritionService` evaluates to NaN, hence
falsy, for every service configuration — so even with a configured,
succeeding collaborator and non-empty ingredients the created recipe is
persisted with no nutrition attached (the creation itself completes). -/
theorem c2_nutrition_guard_always_falsy :
    (∀ service : Option NutritionService, nutritionGuardHolds service = false) ∧
    demoRecipeData.ingredients.length ≠ 0 ∧
    (CreateRecipeUseCase.execute MockRepo.empty (some demoNutritionService)
      demoRecipeData 0).map (fun p => p.2.recipe.nutritionalInfo) = .ok none := by
  refine ⟨fun service => ?_, by decide, rfl⟩
  cases service <;> rfl

/-- Claim C6: `NutritionalInfo` construction fails exactly when
calories, protein, carbs or fats (after the default 0) is negative;
negative fiber and sugar are accepted; all six fields default to 0. -/
theorem c6_nutritionalInfo_negative_validation :
    (∀ calories protein carbs fats fiber sugar : Option ℚ,
      (∃ msg, NutritionalInfo.make calories protein carbs fats fiber sugar = .error msg) ↔
        (calories.getD 0 < 0 ∨ protein.getD 0 < 0 ∨ carbs.getD 0 < 0 ∨ fats.getD 0 < 0)) ∧
    NutritionalInfo.make none none none none none none = .ok ⟨0, 0, 0, 0, 0, 0⟩ ∧
    NutritionalInfo.make (some 1) (some 2) (some 3) (some 4) (some (-5)) (some (-3)) =
      .ok ⟨1, 2, 3, 4, -5, -3⟩ := by
  refine ⟨?_, by norm_num [NutritionalInfo.make], by norm_num [NutritionalInfo.make]⟩
  intro calories protein carbs fats fiber sugar
  unfold NutritionalInfo.make
  split_ifs with h
  · simp only [Bool.or_eq_true, decide_eq_true_eq] at h
    exact iff_of_true ⟨_, rfl⟩ (by tauto)
  · simp only [Bool.or_eq_true, decide_eq_true_eq] at h
    refine iff_of_false ?_ (by tauto)
    rintro ⟨msg, hmsg⟩
    cases hmsg

/-- Claim C7: `Recipe.validate` throws on the first failing rule in the
order name, ingredients, instructions, servingSize; it never returns
false, and returns true exactly when all four rules pass. -/
theorem c7_validate_first_failure_order :
    ∀ r : Recipe,
      (r.validate = .ok true ↔
        ¬(r.name = "" ∨ (jsTrim r.name).length = 0) ∧ r.ingredients.length ≠ 0 ∧
        ¬(r.instructions = "" ∨ (jsTrim r.instructions).length = 0) ∧ ¬ r.servingSize ≤ 0) ∧
      (∀ b, r.validate = .ok b → b = true) ∧
      ((r.name = "" ∨ (jsTrim r.name).length = 0) →
        r.validate = .error "Recipe name is required") ∧
      (¬(r.name = "" ∨ (jsTrim r.name).length = 0) → r.ingredients.length = 0 →
        r.validate = .error "Recipe must have at least one ingredient") ∧
      (¬(r.name = "" ∨ (jsTrim r.name).length = 0) → r.ingredients.length ≠ 0 →
        (r.instructions = "" ∨ (jsTrim r.instructions).length = 0) →
        r.validate = .error "Instructions are required") ∧
      (¬(r.name = "" ∨ (jsTrim r.name).length = 0) → r.ingredients.length ≠ 0 →
        ¬(r.instructions = "" ∨ (jsTrim r.instructions).length = 0) → r.servingSize ≤ 0 →
        r.validate = .error "Serving size must be greater than 0") := by
  intro r
  by_cases h1 : r.name = "" ∨ (jsTrim r.name).length = 0 <;>
    by_cases h2 : r.ingredients.length = 0 <;>
      by_cases h3 : r.instructions = "" ∨ (jsTrim r.instructions).length = 0 <;>
        by_cases h4 : r.servingSize ≤ 0 <;>
          simp [Recipe.validate, h1, h2, h3, h4]

/-- Claim C7 witness: a recipe with a valid name, valid instructions
and positive serving size but no ingredients fails validation with the
ingredient error. -/
theorem c7_validate_witness :
    ({ sampleRecipe with ingredients := [] } : Recipe).validate =
      .error "Recipe must have at least one ingredient" :=
  (c7_validate_first_failure_order { sampleRecipe with ingredients := [] }).2.2.2.1
    (by decide) rfl

/-- State of the mock repository after saving the sample recipe and
calling delete on its assigned id "1". -/
def c8Deleted : MockRepo × Option StoredRecipe :=
  ((MockRepo.empty.save sampleRecipe).1).delete "1"

/-- Claim C8: on the in-memory repository, delete of a stored recipe
returns the record and the record stays in storage, retrievable by id
and excluded from the default listing, and delete of a missing id
returns absent — but the field assigned false is the misspelled
`isActice`, while `isActive` on the stored record remains true. -/
theorem c8_mock_delete_leaves_isActive_true :
    (c8Deleted.2.map fun s => s.recipe.isActive) = some true ∧
    (c8Deleted.2.map fun s => s.isActice) = some (some false) ∧
    (c8Deleted.1.findById "1").isSome = true ∧
    (c8Deleted.1.findAll ⟨none, none, none⟩ ⟨none, none⟩).recipes = [] ∧
    c8Deleted.1.recipes.length = 1 ∧
    (MockRepo.empty.delete "9").2 = none := by
  decide

/-- Claim C9: `isVegetarian` returns the vegetarian flag, while
`isHalal` reads the field name `hala`, which the DietaryFlags
constructor never populates, so it is false for every recipe — also for
one whose halal flag is true. -/
theorem c9_isHalal_always_false :
    (∀ r : Recipe, r.isVegetarian = r.dietaryFlags.vegetarian ∧ r.isHalal = false) ∧
    Recipe.isHalal
      { sampleRecipe with dietaryFlags := ⟨false, false, true, false, false, false⟩ } = false := by
  refine ⟨fun r => ⟨?_, rfl⟩, rfl⟩
  cases hr : r.dietaryFlags.vegetarian <;>
    simp [Recipe.isVegetarian, DietaryFlags.fieldRead, jsStrictEqTrue, hr]

/-- Claim C10 counterexample: a full update supplying quantity 5 (which
is positive) and omitting reorderLevel but carrying a past expiryDate
yields EXPIRED, not ACTIVE. -/
theorem c10_update_with_past_expiry_not_active :
    (0 : ℚ) < 5 ∧
    updateItemStatus ⟨5, none, some 0⟩ 1 = .EXPIRED ∧
    updateItemStatus ⟨5, none, some 0⟩ 1 ≠ .ACTIVE := by
  decide

/-- Claim C10 (amended): a full update computes the status from the
payload alone — the stored reorder level is never consulted — and
whenever the payload supplies quantity > 0, omits reorderLevel, and its
expiryDate is absent or not in the past, the status is ACTIVE, because
the comparison of the quantity against the undefined reorderLevel is
false. -/
theorem c10_update_status_ignores_stored_values :
    ∀ (u : UpdatePayload) (now : ℤ), 0 < u.quantity → u.reorderLevel = none →
      expiryInPast u.expiryDate now = false → updateItemStatus u now = .ACTIVE := by
  intro u now hq hr he
  simp [updateItemStatus, calculateStatus, he, hr, jsLe, hq.ne']

/-- Claim C10 witness: the amended statement at the concrete payload
with quantity 5, no reorderLevel and no expiryDate. -/
theorem c10_update_witness :
    (0 : ℚ) < 5 ∧ updateItemStatus ⟨5, none, none⟩ 0 = .ACTIVE :=
  ⟨by decide, c10_update_status_ignores_stored_values ⟨5, none, none⟩ 0 (by decide) rfl rfl⟩
